import Mathlib

/-!
# Verification of the Delhi NCR noise-pollution dashboard core logic

Shallow embedding of the dashboard's TypeScript sources:

* `generateStaticPredictions` from `dashboard/src/components/DataTable.tsx`
  (the synthetic noise predictor rendered on the map tab);
* `parseCSV` and `calculateKeyMetrics` from `lib/dataUtils.ts`;
* the Gemini text-generation client from `lib/geminiService.ts`.

JavaScript numbers are modelled as exact rationals (`ℚ`), with the two
non-finite values `Infinity` and `-Infinity` kept as separate constructors
where the CSV coercion can produce them.  JS strings are Lean strings.
`Math.random()` draws are threaded explicitly as a stream `rand : ℕ → ℚ`
of values in `[0, 1)`, consumed in the source's evaluation order (two draws
per location: jitter first, then confidence).  `Number.prototype.toFixed`
followed by `parseFloat` is modelled as exact decimal rounding.
-/

attribute [local semireducible] Rat.mul Rat.add Rat.sub Rat.inv Rat.ofScientific

namespace NoiseDashboard

/-- The JS values that can appear in a parsed CSV record: a finite number,
positive or negative infinity (both have JS `typeof` "number"), a string,
or `undefined`.  The parser itself never produces `undef`; it exists so
that statements about "undefined entries" can be expressed. -/
inductive JsValue where
  | num (q : ℚ)
  | inf
  | negInf
  | str (s : String)
  | undef
deriving DecidableEq, Repr

/-- Result of the JS `Number(string)` conversion: `NaN`, a finite value,
or an infinity. -/
inductive JsNum where
  | nan
  | fin (q : ℚ)
  | inf
  | negInf
deriving DecidableEq, Repr

/-- JS whitespace characters removed by `String.prototype.trim`
(ASCII subset; the sources only ever contain ASCII whitespace). -/
def jsWS (c : Char) : Bool :=
  c == ' ' || c == '\t' || c == '\n' || c == '\r' || c == '\x0b' || c == '\x0c'

/-- Model of JS `String.prototype.trim`. -/
def jsTrim (s : String) : String :=
  String.mk (((s.toList.dropWhile jsWS).reverse.dropWhile jsWS).reverse)

/-- Split a character list at every occurrence of `c`; like JS
`String.prototype.split` with a single-character separator, the result is
never empty and keeps empty segments. -/
def splitOnChar (c : Char) : List Char → List (List Char)
  | [] => [[]]
  | x :: xs =>
    let r := splitOnChar c xs
    if x == c then [] :: r
    else
      match r with
      | [] => [[x]]
      | h :: t => (x :: h) :: t

/-- Model of JS `String.prototype.split` with a one-character separator. -/
def jsSplit (c : Char) (s : String) : List String :=
  (splitOnChar c s.toList).map String.mk

/-- Numeric value of a base-`b` digit character (decimal digits plus the
hexadecimal letters in either case). -/
def digitVal? (b : ℕ) (c : Char) : Option ℕ :=
  let v? : Option ℕ :=
    if '0' ≤ c ∧ c ≤ '9' then some (c.toNat - 48)
    else if 'a' ≤ c ∧ c ≤ 'f' then some (c.toNat - 87)
    else if 'A' ≤ c ∧ c ≤ 'F' then some (c.toNat - 55)
    else none
  match v? with
  | some v => if v < b then some v else none
  | none => none

/-- Parse a non-empty all-digit character list in base `b`. -/
def parseBase? (b : ℕ) (l : List Char) : Option ℕ :=
  if l.isEmpty then none
  else
    l.foldl
      (fun acc c =>
        match acc, digitVal? b c with
        | some a, some v => some (a * b + v)
        | _, _ => none)
      (some 0)

/-- Value of a (possibly empty) decimal digit list. -/
def natOfDigits (l : List Char) : ℕ :=
  l.foldl (fun a c => a * 10 + (c.toNat - 48)) 0

/-- `10 ^ n` as a rational, via `Nat` power so that it reduces in the kernel. -/
def pow10 (n : ℕ) : ℚ := ((10 ^ n : ℕ) : ℚ)

/-- `10 ^ e` for an integer exponent, kernel-reducible. -/
def zpow10 : ℤ → ℚ
  | .ofNat n => pow10 n
  | .negSucc n => 1 / pow10 (n + 1)

/-- Parse the exponent part of a JS numeric literal (after the `e`):
optional sign followed by at least one decimal digit. -/
def parseExp? : List Char → Option ℤ
  | '+' :: t => (parseBase? 10 t).map (fun n => (n : ℤ))
  | '-' :: t => (parseBase? 10 t).map (fun n => -(n : ℤ))
  | t => (parseBase? 10 t).map (fun n => (n : ℤ))

/-- Parse an unsigned JS decimal literal (`Digits [. Digits] [Exp]` or
`. Digits [Exp]`) to its exact rational value. -/
def parseDec? (l : List Char) : Option ℚ :=
  let mantExp := l.span (fun c => !(c == 'e' || c == 'E'))
  let expVal? : Option ℤ :=
    match mantExp.2 with
    | [] => some 0
    | _ :: t => parseExp? t
  match expVal? with
  | none => none
  | some e =>
    let ip := mantExp.1.span (fun c => !(c == '.'))
    let mant? : Option ℚ :=
      match ip.2 with
      | [] => (parseBase? 10 ip.1).map (fun n => (n : ℚ))
      | _ :: frac =>
        if ip.1.isEmpty ∧ frac.isEmpty then none
        else if ip.1.all Char.isDigit ∧ frac.all Char.isDigit then
          some ((natOfDigits ip.1 : ℚ) + (natOfDigits frac : ℚ) / pow10 frac.length)
        else none
    mant?.map (fun q => q * zpow10 e)

/-- Model of the JS `Number(string)` conversion on a whitespace-trimmed
character list: empty is `0`; an unsigned hex/octal/binary literal; an
optionally signed `Infinity` or decimal literal; anything else is `NaN`. -/
def jsToNumberChars (l : List Char) : JsNum :=
  match l with
  | [] => .fin 0
  | '0' :: 'x' :: t => match parseBase? 16 t with | some n => .fin n | none => .nan
  | '0' :: 'X' :: t => match parseBase? 16 t with | some n => .fin n | none => .nan
  | '0' :: 'o' :: t => match parseBase? 8 t with | some n => .fin n | none => .nan
  | '0' :: 'O' :: t => match parseBase? 8 t with | some n => .fin n | none => .nan
  | '0' :: 'b' :: t => match parseBase? 2 t with | some n => .fin n | none => .nan
  | '0' :: 'B' :: t => match parseBase? 2 t with | some n => .fin n | none => .nan
  | _ =>
    let signed : ℚ × List Char :=
      match l with
      | '+' :: t => (1, t)
      | '-' :: t => (-1, t)
      | t => (1, t)
    if signed.2 = "Infinity".toList then
      if signed.1 = 1 then .inf else .negInf
    else
      match parseDec? signed.2 with
      | some q => .fin (signed.1 * q)
      | none => .nan

/-- Model of JS `Number(string)` (which trims whitespace itself). -/
def jsToNumber (s : String) : JsNum :=
  jsToNumberChars (jsTrim s).toList

/-- Cell coercion of `parseCSV` (`dataUtils.ts`):
`row[header] = (value !== '' && !isNaN(Number(value))) ? Number(value) : value`. -/
def coerceCell (value : String) : JsValue :=
  if value = "" then .str value
  else
    match jsToNumber value with
    | .nan => .str value
    | .fin q => .num q
    | .inf => .inf
    | .negInf => .negInf

/-- Is the stored JS value of `typeof` "number"? -/
def isNumericJs : JsValue → Bool
  | .num _ => true
  | .inf => true
  | .negInf => true
  | _ => false

/-- The record-building loop of `parseCSV`:
`headers.forEach((header, index) => { const value = values[index] || ''; ... })`.
A record is the ordered list of `(header, coerced value)` pairs; a missing
or empty positional value becomes the empty string before coercion. -/
def mkRow (headers values : List String) : List (String × JsValue) :=
  headers.enum.map (fun p => (p.2, coerceCell (values.getD p.1 "")))

/-- One iteration of the data-line loop of `parseCSV`: trim the line, skip
it when empty, otherwise split on commas, trim each cell and build the row. -/
def parseRow? (headers : List String) (line : String) : Option (List (String × JsValue)) :=
  let l := jsTrim line
  if l = "" then none
  else some (mkRow headers ((jsSplit ',' l).map jsTrim))

/-- `parseCSV` from `dataUtils.ts`: trim the text, split into lines, bail
out with `[]` when fewer than two lines remain, read the comma-separated
trimmed header names from the first line, and turn every non-empty later
line into a record. -/
def parseCSV (csvText : String) : List (List (String × JsValue)) :=
  let lines := jsSplit '\n' (jsTrim csvText)
  if lines.length < 2 then []
  else
    let headers := (jsSplit ',' (lines.getD 0 "")).map jsTrim
    (lines.drop 1).filterMap (parseRow? headers)

example : parseCSV "A,B\n1,2" = [[("A", JsValue.num 1), ("B", JsValue.num 2)]] := by decide

example : parseCSV "A\nInfinity" = [[("A", JsValue.inf)]] := by decide

example : parseCSV "A,B\n1" = [[("A", JsValue.num 1), ("B", JsValue.str "")]] := by decide

/-! ## Metrics aggregator (`calculateKeyMetrics` in `dataUtils.ts`) -/

/-- A typed station-rankings record (interface `StationRanking`). -/
structure StationRanking where
  Location : String
  Average_LAeq_dBA : ℚ
  Zone_Type : String
  Day_Limit_dBA : ℚ
  Night_Limit_dBA : ℚ
deriving DecidableEq, Repr

/-- A typed exceedance-summary record (interface `ExceedanceSummary`). -/
structure ExceedanceSummary where
  Location : String
  Zone_Type : String
  Day_Limit_dBA : ℚ
  Night_Limit_dBA : ℚ
  Exceedance_Count : ℚ
  Total_Count : ℚ
  Exceedance_Percentage : ℚ
deriving DecidableEq, Repr

/-- The aggregate returned by `calculateKeyMetrics`. -/
structure KeyMetrics where
  loudestStation : String
  highestAvgNoise : ℚ
  avgViolationRate : ℚ
deriving DecidableEq, Repr

/-- `Number(x.toFixed(1))`: exact rounding to one decimal place
(ties away from zero for the positive values that occur here). -/
def round1 (q : ℚ) : ℚ := ((⌊q * 10 + 1 / 2⌋ : ℤ) : ℚ) / 10

/-- `calculateKeyMetrics` from `dataUtils.ts`: placeholder on an empty
input, otherwise the first ranking's location and (1-decimal rounded)
average noise together with the rounded arithmetic mean of the
exceedance percentages; the sum is the source's `reduce` fold. -/
def calculateKeyMetrics (stationRankings : List StationRanking)
    (exceedanceSummary : List ExceedanceSummary) : KeyMetrics :=
  match stationRankings, exceedanceSummary with
  | [], _ => { loudestStation := "N/A", highestAvgNoise := 0, avgViolationRate := 0 }
  | _, [] => { loudestStation := "N/A", highestAvgNoise := 0, avgViolationRate := 0 }
  | s :: _, e :: etl =>
    let totalViolationRate :=
      (e :: etl).foldl (fun sum station => sum + station.Exceedance_Percentage) 0
    { loudestStation := s.Location
      highestAvgNoise := round1 s.Average_LAeq_dBA
      avgViolationRate := round1 (totalViolationRate / (((e :: etl).length : ℕ) : ℚ)) }

/-! ## Synthetic predictor (`generateStaticPredictions` in `DataTable.tsx`) -/

/-- One hardcoded monitoring location of the predictor. -/
structure LocationInfo where
  name : String
  lat : ℚ
  lon : ℚ
  zone : String
  baseNoise : ℚ
deriving DecidableEq, Repr

/-- The fixed compiled-in list of nine locations, in source order. -/
def locations : List LocationInfo :=
  [ { name := "nsit", lat := 28.61, lon := 77.04, zone := "Silence Zone", baseNoise := 65 },
    { name := "ito", lat := 28.631, lon := 77.248, zone := "Commercial", baseNoise := 76 },
    { name := "punjabi", lat := 28.66, lon := 77.12, zone := "Residential", baseNoise := 72 },
    { name := "isbt", lat := 28.667, lon := 77.231, zone := "Commercial", baseNoise := 75 },
    { name := "mandir_marg", lat := 28.628, lon := 77.203, zone := "Commercial", baseNoise := 68 },
    { name := "civil_lines", lat := 28.678, lon := 77.222, zone := "Residential", baseNoise := 70 },
    { name := "CPCBHQ", lat := 28.59, lon := 77.25, zone := "Commercial", baseNoise := 66 },
    { name := "Dilshad", lat := 28.68, lon := 77.31, zone := "Residential", baseNoise := 64 },
    { name := "centralschool", lat := 28.53, lon := 77.25, zone := "Silence Zone", baseNoise := 62 } ]

/-- The static `noiseLimits` table: `(day, night)` limits per zone key;
an unknown key is `none` (JS would yield `undefined`). -/
def zoneLimits (zone : String) : Option (ℚ × ℚ) :=
  if zone = "Industrial" then some (75, 70)
  else if zone = "Commercial" then some (65, 55)
  else if zone = "Residential" then some (55, 45)
  else if zone = "Silence Zone" then some (50, 40)
  else none

/-- The time-of-day factor. -/
def timeFactor (hour : ℤ) : ℚ :=
  if 8 ≤ hour ∧ hour ≤ 10 then 4.5
  else if 17 ≤ hour ∧ hour ≤ 20 then 6.0
  else if 0 ≤ hour ∧ hour ≤ 5 then -8.0
  else 0

/-- The day-of-week factor. -/
def dayFactor (dayOfWeek : ℤ) : ℚ :=
  if 5 ≤ dayOfWeek then -3.5 else 0

/-- `environmentalNoise = loc.baseNoise + timeFactor + dayFactor`. -/
def environmentalNoise (hour dayOfWeek : ℤ) (loc : LocationInfo) : ℚ :=
  loc.baseNoise + timeFactor hour + dayFactor dayOfWeek

/-- The jitter term `Math.random() * 3 - 1.5`, as a function of the raw
uniform draw `u ∈ [0, 1)`. -/
def jitterOf (u : ℚ) : ℚ := u * 3 - 1.5

/-- The pre-rounding predicted noise
`(0.6 * noiseLag) + (0.4 * environmentalNoise) + jitter`. -/
def predictedNoiseRaw (hour dayOfWeek : ℤ) (noiseLag : ℚ) (loc : LocationInfo) (u : ℚ) : ℚ :=
  0.6 * noiseLag + 0.4 * environmentalNoise hour dayOfWeek loc + jitterOf u

/-- `isNight = hour >= 22 || hour < 6`. -/
def isNight (hour : ℤ) : Bool :=
  decide (22 ≤ hour) || decide (hour < 6)

/-- `noiseLimits[loc.zone][isNight ? 'night' : 'day']`; the lookup always
succeeds for the nine compiled-in zones, so the `getD` default is dead. -/
def noiseLimitFor (hour : ℤ) (zone : String) : ℚ :=
  let p := (zoneLimits zone).getD (0, 0)
  if isNight hour then p.2 else p.1

/-- `parseFloat(x.toFixed(2))`: exact rounding to two decimal places. -/
def round2 (q : ℚ) : ℚ := ((⌊q * 100 + 1 / 2⌋ : ℤ) : ℚ) / 100

/-- One record of the predictor's output (interface `MapDataPoint`). -/
structure MapDataPoint where
  location : String
  latitude : ℚ
  longitude : ℚ
  predicted_noise : ℚ
  zone_type : String
  noise_limit : ℚ
  is_violation : Bool
  confidence : ℚ
deriving DecidableEq, Repr

/-- The per-location body of `generateStaticPredictions`: `u` is the
jitter draw and `c` the confidence draw (the two `Math.random()` calls
for this location, in evaluation order).  Note that `is_violation`
compares the UNROUNDED noise with the limit, while the stored
`predicted_noise` is rounded to two decimals. -/
def mkPrediction (hour dayOfWeek : ℤ) (noiseLag : ℚ) (loc : LocationInfo) (u c : ℚ) :
    MapDataPoint :=
  let raw := predictedNoiseRaw hour dayOfWeek noiseLag loc u
  let limit := noiseLimitFor hour loc.zone
  { location := loc.name
    latitude := loc.lat
    longitude := loc.lon
    predicted_noise := round2 raw
    zone_type := loc.zone
    noise_limit := limit
    is_violation := decide (limit < raw)
    confidence := round2 (0.75 + c * 0.2) }

/-- `generateStaticPredictions(hour, dayOfWeek, noiseLag)`: map the body
over the fixed location list; location `i` consumes the random draws
`rand (2*i)` (jitter) and `rand (2*i+1)` (confidence). -/
def generateStaticPredictions (hour dayOfWeek : ℤ) (noiseLag : ℚ) (rand : ℕ → ℚ) :
    List MapDataPoint :=
  locations.enum.map (fun p => mkPrediction hour dayOfWeek noiseLag p.2
    (rand (2 * p.1)) (rand (2 * p.1 + 1)))

/-! ## Text-generation client (`geminiService.ts`)

The two HTTP endpoints are abstracted as values: the model-listing
request outcome `L : Except String (List ModelInfo)` (the `String` is the
message extracted from a failed response) and the per-model generation
outcome `G : String → Except String GeminiResponse`.  The client is then
a pure function of `(L, G)`; in particular each invocation consults `L`
afresh (there is no cache to model). -/

/-- One entry of the model-listing response (interface `ModelInfo`). -/
structure ModelInfo where
  name : String
  supportedGenerationMethods : List String
deriving DecidableEq, Repr

/-- `{ text }` part of a generation candidate. -/
structure GeminiPart where
  text : String
deriving DecidableEq, Repr

/-- `{ parts }` content of a generation candidate. -/
structure GeminiContent where
  parts : List GeminiPart
deriving DecidableEq, Repr

/-- One generation candidate. -/
structure GeminiCandidate where
  content : GeminiContent
deriving DecidableEq, Repr

/-- The generation response (interface `GeminiResponse`). -/
structure GeminiResponse where
  candidates : List GeminiCandidate
deriving DecidableEq, Repr

/-- How a client call can fail: with one of the descriptive `Error`
messages thrown explicitly by the source, or with the runtime
`TypeError` raised by `data.candidates[0].content.parts[0].text` when
the first candidate has no parts. -/
inductive GeminiError where
  | descriptive (msg : String)
  | typeError
deriving DecidableEq, Repr

/-- `listAvailableModels`: propagate the listing failure as the
descriptive error thrown by the source, else return the model list. -/
def listAvailableModels (listOutcome : Except String (List ModelInfo)) :
    Except GeminiError (List ModelInfo) :=
  match listOutcome with
  | .error msg => .error (.descriptive ("Failed to list Gemini models: " ++ msg))
  | .ok models => .ok models

/-- The `usable` filter of `pickModelWithGenerateContent` (the
`Array.isArray` guard is vacuous under the typed interface). -/
def usableModels (models : List ModelInfo) : List ModelInfo :=
  models.filter (fun m => m.supportedGenerationMethods.contains "generateContent")

/-- `pickModelWithGenerateContent`: first usable model's name, or the
descriptive error when none is usable. -/
def pickModelWithGenerateContent (listOutcome : Except String (List ModelInfo)) :
    Except GeminiError String :=
  match listAvailableModels listOutcome with
  | .error e => .error e
  | .ok models =>
    match usableModels models with
    | [] => .error (.descriptive "No model supports generateContent in this project.")
    | m :: _ => .ok m.name

/-- `callGeminiAPI`: resolve a model, issue the generation request, and
return the first candidate's first part's text, trimmed; each failure
surfaces as in the source. -/
def callGeminiAPI (listOutcome : Except String (List ModelInfo))
    (genOutcome : String → Except String GeminiResponse) : Except GeminiError String :=
  match pickModelWithGenerateContent listOutcome with
  | .error e => .error e
  | .ok modelName =>
    match genOutcome modelName with
    | .error msg => .error (.descriptive ("Gemini API error: " ++ msg))
    | .ok data =>
      match data.candidates with
      | [] => .error (.descriptive "No response returned from Gemini API")
      | c :: _ =>
        match c.content.parts with
        | [] => .error .typeError
        | part0 :: _ => .ok (jsTrim part0.text)

/-- The amended specification of the client, written from the spec's
words for comparison with `callGeminiAPI`: a descriptive error for each
of the four stated failure conditions, a (non-descriptive) type error
when the first candidate has an empty parts list, and otherwise the
first usable model's first candidate text, trimmed. -/
def geminiClientSpec (listOutcome : Except String (List ModelInfo))
    (genOutcome : String → Except String GeminiResponse) : Except GeminiError String :=
  match listOutcome with
  | .error msg => .error (.descriptive ("Failed to list Gemini models: " ++ msg))
  | .ok models =>
    match usableModels models with
    | [] => .error (.descriptive "No model supports generateContent in this project.")
    | m :: _ =>
      match genOutcome m.name with
      | .error msg => .error (.descriptive ("Gemini API error: " ++ msg))
      | .ok data =>
        match data.candidates with
        | [] => .error (.descriptive "No response returned from Gemini API")
        | c :: _ =>
          match c.content.parts with
          | [] => .error .typeError
          | part0 :: _ => .ok (jsTrim part0.text)

/-! ## Helper lemmas -/

/-- Rounding to two decimals cannot go below a lower bound that is itself
a multiple of `1/100`. -/
lemma le_round2 {x lo : ℚ} {a : ℤ} (hlo : lo * 100 = a) (h : lo ≤ x) : lo ≤ round2 x := by
  have h1 : (a : ℚ) ≤ x * 100 + 1 / 2 := by rw [← hlo]; linarith
  have h2 : a ≤ ⌊x * 100 + 1 / 2⌋ := Int.le_floor.mpr h1
  have h3 : (a : ℚ) ≤ ((⌊x * 100 + 1 / 2⌋ : ℤ) : ℚ) := by exact_mod_cast h2
  rw [← hlo] at h3
  rw [round2]
  linarith

/-- Rounding to two decimals cannot exceed a strict upper bound that is
itself a multiple of `1/100`. -/
lemma round2_le {x hi : ℚ} {b : ℤ} (hhi : hi * 100 = b) (h : x < hi) : round2 x ≤ hi := by
  have h1 : ⌊x * 100 + 1 / 2⌋ < b + 1 := by
    refine Int.floor_lt.mpr ?_
    push_cast
    rw [← hhi]
    linarith
  have h2 : ⌊x * 100 + 1 / 2⌋ ≤ b := by omega
  have h3 : ((⌊x * 100 + 1 / 2⌋ : ℤ) : ℚ) ≤ (b : ℚ) := by exact_mod_cast h2
  rw [← hhi] at h3
  rw [round2]
  linarith

/-- Four times the time factor is an integer. -/
lemma timeFactor_int (hour : ℤ) : ∃ k : ℤ, timeFactor hour * 4 = k := by
  unfold timeFactor
  split_ifs
  · exact ⟨18, by norm_num⟩
  · exact ⟨24, by norm_num⟩
  · exact ⟨-32, by norm_num⟩
  · exact ⟨0, by norm_num⟩

/-- Four times the day factor is an integer. -/
lemma dayFactor_int (dayOfWeek : ℤ) : ∃ k : ℤ, dayFactor dayOfWeek * 4 = k := by
  unfold dayFactor
  split_ifs
  · exact ⟨-14, by norm_num⟩
  · exact ⟨0, by norm_num⟩

/-- For an integer prior-noise level and an integer base noise, one
hundred times the blend centre `0.6 * prior + 0.4 * environmental` is an
integer. -/
lemma center_hundred_int (hour dayOfWeek : ℤ) (p : ℚ) (loc : LocationInfo)
    (hp : ∃ pz : ℤ, p = pz) (hb : ∃ bz : ℤ, loc.baseNoise = bz) :
    ∃ m : ℤ, (0.6 * p + 0.4 * environmentalNoise hour dayOfWeek loc) * 100 = m := by
  obtain ⟨k1, hk1⟩ := timeFactor_int hour
  obtain ⟨k2, hk2⟩ := dayFactor_int dayOfWeek
  obtain ⟨bz, hbz⟩ := hb
  obtain ⟨pz, hpz⟩ := hp
  refine ⟨60 * pz + 40 * bz + 10 * k1 + 10 * k2, ?_⟩
  unfold environmentalNoise
  push_cast
  linear_combination (60 : ℚ) * hpz + 40 * hbz + 10 * hk1 + 10 * hk2

/-- The two `Math.random()`-derived bounds of the stored (rounded)
predicted noise, around the blend centre. -/
lemma mkPrediction_noise_bounds (hour dayOfWeek : ℤ) (p : ℚ) (loc : LocationInfo) (u c : ℚ)
    (hu0 : 0 ≤ u) (hu1 : u < 1)
    (hm : ∃ m : ℤ, (0.6 * p + 0.4 * environmentalNoise hour dayOfWeek loc) * 100 = m) :
    0.6 * p + 0.4 * environmentalNoise hour dayOfWeek loc - 1.5
        ≤ (mkPrediction hour dayOfWeek p loc u c).predicted_noise ∧
      (mkPrediction hour dayOfWeek p loc u c).predicted_noise
        ≤ 0.6 * p + 0.4 * environmentalNoise hour dayOfWeek loc + 1.5 := by
  obtain ⟨m, hm⟩ := hm
  have hpred : (mkPrediction hour dayOfWeek p loc u c).predicted_noise
      = round2 (predictedNoiseRaw hour dayOfWeek p loc u) := rfl
  have hraw1 : 0.6 * p + 0.4 * environmentalNoise hour dayOfWeek loc - 1.5
      ≤ predictedNoiseRaw hour dayOfWeek p loc u := by
    unfold predictedNoiseRaw jitterOf
    nlinarith
  have hraw2 : predictedNoiseRaw hour dayOfWeek p loc u
      < 0.6 * p + 0.4 * environmentalNoise hour dayOfWeek loc + 1.5 := by
    unfold predictedNoiseRaw jitterOf
    nlinarith
  constructor
  · rw [hpred]
    refine le_round2 (a := m - 150) ?_ hraw1
    push_cast
    linear_combination hm
  · rw [hpred]
    refine round2_le (b := m + 150) ?_ hraw2
    push_cast
    linear_combination hm

/-- The confidence field always lies in the closed interval
`[0.75, 0.95]`. -/
lemma mkPrediction_conf_bounds (hour dayOfWeek : ℤ) (p : ℚ) (loc : LocationInfo) (u c : ℚ)
    (hc0 : 0 ≤ c) (hc1 : c < 1) :
    0.75 ≤ (mkPrediction hour dayOfWeek p loc u c).confidence ∧
      (mkPrediction hour dayOfWeek p loc u c).confidence ≤ 0.95 := by
  have hconf : (mkPrediction hour dayOfWeek p loc u c).confidence
      = round2 (0.75 + c * 0.2) := rfl
  constructor
  · rw [hconf]
    refine le_round2 (a := 75) (by norm_num) ?_
    nlinarith
  · rw [hconf]
    refine round2_le (b := 95) (by norm_num) ?_
    nlinarith

/-- `filterMap` with the data-line reader keeps exactly the lines that do
not trim to the empty string. -/
lemma length_filterMap_parseRow (headers : List String) (l : List String) :
    (l.filterMap (parseRow? headers)).length
      = (l.filter (fun line => !(jsTrim line == ""))).length := by
  induction l with
  | nil => rfl
  | cons a t ih =>
    by_cases h : jsTrim a = ""
    · simp [List.filterMap_cons, parseRow?, h, List.filter_cons, ih]
    · simp [List.filterMap_cons, parseRow?, h, List.filter_cons, ih]

/-- `parseCSV` rejects no data line: it returns one record per non-empty
data line, regardless of each line's field count. -/
lemma parseCSV_record_count (csvText : String) :
    (parseCSV csvText).length =
      if (jsSplit '\n' (jsTrim csvText)).length < 2 then 0
      else (((jsSplit '\n' (jsTrim csvText)).drop 1).filter
        (fun line => !(jsTrim line == ""))).length := by
  unfold parseCSV
  by_cases h : (jsSplit '\n' (jsTrim csvText)).length < 2
  · simp [h]
  · simp [h, length_filterMap_parseRow]

/-- The keys of a parsed record are exactly the header names, in order. -/
lemma mkRow_map_fst (headers values : List String) :
    (mkRow headers values).map Prod.fst = headers := by
  unfold mkRow
  rw [List.map_map]
  have hcomp : (Prod.fst ∘ fun p : ℕ × String => (p.2, coerceCell (values.getD p.1 "")))
      = Prod.snd := rfl
  rw [hcomp]
  exact List.enum_map_snd headers

/-- An out-of-range positional value is read back as the empty string
(`values[index] || ''`), so the corresponding record entry is the
coercion of `""`, i.e. the empty string, not `undefined`. -/
lemma mkRow_getD_missing (headers values : List String) (i : ℕ)
    (hi : i < headers.length) (hv : values.length ≤ i) :
    (mkRow headers values).getD i ("", JsValue.undef)
      = (headers.getD i "", JsValue.str "") := by
  unfold mkRow
  have h1 : values[i]? = none := List.getElem?_eq_none hv
  have h2 : headers[i]? = some headers[i] := List.getElem?_eq_getElem hi
  simp [List.getD_eq_getElem?_getD, List.getElem?_map, List.getElem?_enum, h1, h2, coerceCell]

/-- A left fold adding `f` over a list is the sum of the mapped list. -/
lemma foldl_add_eq_sum_map {α : Type} (f : α → ℚ) :
    ∀ (l : List α) (a : ℚ), l.foldl (fun s x => s + f x) a = a + (l.map f).sum := by
  intro l
  induction l with
  | nil => intro a; simp
  | cons x t ih => intro a; simp [ih]; ring

/-- The Boolean night window agrees with the propositional one. -/
lemma noiseLimitFor_ite (hour : ℤ) (zone : String) :
    noiseLimitFor hour zone
      = (if 22 ≤ hour ∨ hour < 6
         then ((zoneLimits zone).getD (0, 0)).2
         else ((zoneLimits zone).getD (0, 0)).1) := by
  unfold noiseLimitFor isNight
  by_cases h1 : 22 ≤ hour <;> by_cases h2 : hour < 6 <;> simp [h1, h2]

/-- For the four table zones, the selected limit is always one of the
eight values of the static limit table. -/
lemma noiseLimitFor_mem (hour : ℤ) (zone : String)
    (hz : zone = "Industrial" ∨ zone = "Commercial" ∨ zone = "Residential"
      ∨ zone = "Silence Zone") :
    noiseLimitFor hour zone ∈ ([75, 70, 65, 55, 55, 45, 50, 40] : List ℚ) := by
  rcases hz with rfl | rfl | rfl | rfl <;>
    · unfold noiseLimitFor
      cases h : isNight hour <;> simp [h] <;> decide

/-- Every compiled-in base noise level is an integer. -/
lemma locations_baseNoise_int (i : ℕ) (hi : i < 9) :
    ∃ bz : ℤ, (locations.get ⟨i, hi⟩).baseNoise = bz := by
  interval_cases i
  exacts [⟨65, by norm_num [locations]⟩, ⟨76, by norm_num [locations]⟩,
    ⟨72, by norm_num [locations]⟩, ⟨75, by norm_num [locations]⟩,
    ⟨68, by norm_num [locations]⟩, ⟨70, by norm_num [locations]⟩,
    ⟨66, by norm_num [locations]⟩, ⟨64, by norm_num [locations]⟩,
    ⟨62, by norm_num [locations]⟩]

/-- The predictor always returns nine records. -/
lemma length_generateStaticPredictions (hour dayOfWeek : ℤ) (p : ℚ) (rand : ℕ → ℚ) :
    (generateStaticPredictions hour dayOfWeek p rand).length = 9 := rfl

/-! ## Claim C5: `calculateKeyMetrics` -/

/-- C5 counterexample: the returned `highestAvgNoise` and
`avgViolationRate` are rounded to one decimal, so they are NOT the first
ranking's raw `Average_LAeq_dBA` (here `75.123`) nor the raw mean of the
exceedance percentages (here `10.07`, being the mean of one record). -/
theorem claim5_counterexample :
    calculateKeyMetrics
        [{ Location := "A", Average_LAeq_dBA := 75.123, Zone_Type := "Commercial",
           Day_Limit_dBA := 65, Night_Limit_dBA := 55 }]
        [{ Location := "A", Zone_Type := "Commercial", Day_Limit_dBA := 65,
           Night_Limit_dBA := 55, Exceedance_Count := 100, Total_Count := 1000,
           Exceedance_Percentage := 10.07 }]
      = { loudestStation := "A", highestAvgNoise := 75.1, avgViolationRate := 10.1 }
    ∧ (75.1 : ℚ) ≠ 75.123 ∧ (10.1 : ℚ) ≠ 10.07 := by
  refine ⟨by decide, by decide, by decide⟩

/-- C5 (amended): on empty input `calculateKeyMetrics` returns the
placeholder; otherwise it returns the first ranking's location, its
average noise ROUNDED TO ONE DECIMAL, and the unweighted arithmetic mean
of the exceedance percentages, also rounded to one decimal. -/
theorem claim5_key_metrics_amended :
    (∀ es : List ExceedanceSummary, calculateKeyMetrics [] es
        = { loudestStation := "N/A", highestAvgNoise := 0, avgViolationRate := 0 }) ∧
    (∀ rs : List StationRanking, calculateKeyMetrics rs []
        = { loudestStation := "N/A", highestAvgNoise := 0, avgViolationRate := 0 }) ∧
    (∀ (s : StationRanking) (stl : List StationRanking) (e : ExceedanceSummary)
        (etl : List ExceedanceSummary),
      calculateKeyMetrics (s :: stl) (e :: etl)
        = { loudestStation := s.Location
            highestAvgNoise := round1 s.Average_LAeq_dBA
            avgViolationRate := round1
              ((((e :: etl).map (fun x => x.Exceedance_Percentage)).sum)
                / ((((e :: etl).length : ℕ)) : ℚ)) }) := by
  refine ⟨fun es => ?_, fun rs => ?_, fun s stl e etl => ?_⟩
  · simp [calculateKeyMetrics]
  · cases rs <;> simp [calculateKeyMetrics]
  · simp only [calculateKeyMetrics]
    rw [foldl_add_eq_sum_map]
    rw [zero_add]

/-! ## Claim C6: `parseCSV` basic behaviour -/

/-- C6 counterexample: the cell `Infinity` is non-empty and does not
parse as a FINITE number, yet the parser stores it as the numeric value
`Infinity` (JS `Number('Infinity')` is not `NaN`), not as a string. -/
theorem claim6_counterexample :
    parseCSV "A\nInfinity" = [[("A", JsValue.inf)]]
      ∧ JsValue.inf ≠ JsValue.str "Infinity"
      ∧ isNumericJs JsValue.inf = true := by
  refine ⟨by decide, by decide, by decide⟩

/-- C6 (amended): `parseCSV "A,B\n1,2"` yields the single record
`{A: 1, B: 2}`; in general a trimmed cell is stored as a number exactly
when it is non-empty and `Number(cell)` is not `NaN` (which includes the
non-finite `Infinity` values), every other cell is kept as a string, and
empty lines contribute no record. -/
theorem claim6_parse_csv_amended :
    parseCSV "A,B\n1,2" = [[("A", JsValue.num 1), ("B", JsValue.num 2)]] ∧
    (∀ v : String, isNumericJs (coerceCell v)
        = (!(v == "") && !(jsToNumber v == JsNum.nan))) ∧
    (∀ v : String, coerceCell v = JsValue.str v ∨ isNumericJs (coerceCell v) = true) ∧
    (∀ csvText : String, (parseCSV csvText).length =
      if (jsSplit '\n' (jsTrim csvText)).length < 2 then 0
      else (((jsSplit '\n' (jsTrim csvText)).drop 1).filter
        (fun line => !(jsTrim line == ""))).length) := by
  refine ⟨by decide, ?_, ?_, parseCSV_record_count⟩
  · intro v
    unfold coerceCell
    by_cases hv : v = ""
    · simp [hv, isNumericJs]
    · cases hn : jsToNumber v <;> simp [hv, hn, isNumericJs]
  · intro v
    unfold coerceCell
    by_cases hv : v = ""
    · simp [hv]
    · cases hn : jsToNumber v <;> simp [hv, hn, isNumericJs]

/-! ## Claim C7: `parseCSV` on ragged lines -/

/-- C7 counterexample: a data line with fewer values than header fields
still yields a record, but the trailing entry holds the EMPTY STRING,
not `undefined`. -/
theorem claim7_counterexample :
    parseCSV "A,B\n1" = [[("A", JsValue.num 1), ("B", JsValue.str "")]]
      ∧ JsValue.str "" ≠ JsValue.undef := by
  refine ⟨by decide, by decide⟩

/-- C7 (amended): no data line is rejected for its field count — records
are one per non-empty data line; values are assigned to header fields
positionally with excess values dropped (the record's keys are exactly
the header names); and for a line with fewer values than header fields
the trailing entries are the empty string. -/
theorem claim7_positional_fill_amended :
    (∀ headers values : List String, (mkRow headers values).map Prod.fst = headers) ∧
    (∀ (headers values : List String) (i : ℕ), i < headers.length → values.length ≤ i →
      (mkRow headers values).getD i ("", JsValue.undef)
        = (headers.getD i "", JsValue.str "")) ∧
    (∀ csvText : String, (parseCSV csvText).length =
      if (jsSplit '\n' (jsTrim csvText)).length < 2 then 0
      else (((jsSplit '\n' (jsTrim csvText)).drop 1).filter
        (fun line => !(jsTrim line == ""))).length) :=
  ⟨mkRow_map_fst, mkRow_getD_missing, parseCSV_record_count⟩

/-- Witness for C7 (amended) at the concrete ragged input
`headers = [A, B]`, `values = [1]`. -/
theorem claim7_witness :
    (mkRow ["A", "B"] ["1"]).map Prod.fst = ["A", "B"]
      ∧ (mkRow ["A", "B"] ["1"]).getD 1 ("", JsValue.undef) = ("B", JsValue.str "") :=
  ⟨claim7_positional_fill_amended.1 ["A", "B"] ["1"],
   claim7_positional_fill_amended.2.1 ["A", "B"] ["1"] 1 (by decide) (by decide)⟩

/-! ## Claim C1: shape and noise bounds of the predictor output -/

/-- C1: for every valid input triple and every draw of the random
source, the predictor returns exactly 9 records, one per fixed location
identifier in order, and each record's `predicted_noise` lies within
`[0.6*prior + 0.4*env - 1.5, 0.6*prior + 0.4*env + 1.5]` for that
location's environmental noise. -/
theorem claim1_predict_count_and_bounds (hour dayOfWeek : ℤ) (p : ℚ) (rand : ℕ → ℚ)
    (hh : 0 ≤ hour ∧ hour ≤ 23) (hd : 0 ≤ dayOfWeek ∧ dayOfWeek ≤ 6)
    (hp : p = 55 ∨ p = 65 ∨ p = 75) (hr : ∀ n, 0 ≤ rand n ∧ rand n < 1) :
    (generateStaticPredictions hour dayOfWeek p rand).length = 9
    ∧ (generateStaticPredictions hour dayOfWeek p rand).map (fun r => r.location)
        = ["nsit", "ito", "punjabi", "isbt", "mandir_marg", "civil_lines", "CPCBHQ",
           "Dilshad", "centralschool"]
    ∧ ∀ i (hi : i < 9),
        0.6 * p + 0.4 * environmentalNoise hour dayOfWeek (locations.get ⟨i, hi⟩) - 1.5
            ≤ ((generateStaticPredictions hour dayOfWeek p rand).get ⟨i, hi⟩).predicted_noise
        ∧ ((generateStaticPredictions hour dayOfWeek p rand).get ⟨i, hi⟩).predicted_noise
            ≤ 0.6 * p + 0.4 * environmentalNoise hour dayOfWeek (locations.get ⟨i, hi⟩)
              + 1.5 := by
  have hpz : ∃ pz : ℤ, p = pz := by
    rcases hp with rfl | rfl | rfl
    exacts [⟨55, by norm_num⟩, ⟨65, by norm_num⟩, ⟨75, by norm_num⟩]
  refine ⟨rfl, rfl, ?_⟩
  intro i hi
  interval_cases i
  · exact mkPrediction_noise_bounds hour dayOfWeek p _ _ _ (hr 0).1 (hr 0).2
      (center_hundred_int hour dayOfWeek p _ hpz (locations_baseNoise_int 0 (by norm_num)))
  · exact mkPrediction_noise_bounds hour dayOfWeek p _ _ _ (hr 2).1 (hr 2).2
      (center_hundred_int hour dayOfWeek p _ hpz (locations_baseNoise_int 1 (by norm_num)))
  · exact mkPrediction_noise_bounds hour dayOfWeek p _ _ _ (hr 4).1 (hr 4).2
      (center_hundred_int hour dayOfWeek p _ hpz (locations_baseNoise_int 2 (by norm_num)))
  · exact mkPrediction_noise_bounds hour dayOfWeek p _ _ _ (hr 6).1 (hr 6).2
      (center_hundred_int hour dayOfWeek p _ hpz (locations_baseNoise_int 3 (by norm_num)))
  · exact mkPrediction_noise_bounds hour dayOfWeek p _ _ _ (hr 8).1 (hr 8).2
      (center_hundred_int hour dayOfWeek p _ hpz (locations_baseNoise_int 4 (by norm_num)))
  · exact mkPrediction_noise_bounds hour dayOfWeek p _ _ _ (hr 10).1 (hr 10).2
      (center_hundred_int hour dayOfWeek p _ hpz (locations_baseNoise_int 5 (by norm_num)))
  · exact mkPrediction_noise_bounds hour dayOfWeek p _ _ _ (hr 12).1 (hr 12).2
      (center_hundred_int hour dayOfWeek p _ hpz (locations_baseNoise_int 6 (by norm_num)))
  · exact mkPrediction_noise_bounds hour dayOfWeek p _ _ _ (hr 14).1 (hr 14).2
      (center_hundred_int hour dayOfWeek p _ hpz (locations_baseNoise_int 7 (by norm_num)))
  · exact mkPrediction_noise_bounds hour dayOfWeek p _ _ _ (hr 16).1 (hr 16).2
      (center_hundred_int hour dayOfWeek p _ hpz (locations_baseNoise_int 8 (by norm_num)))

/-- Witness for C1 at hour 17, Tuesday, prior 65, constant draws 1/2. -/
theorem claim1_witness :
    (generateStaticPredictions 17 1 65 (fun _ => 1 / 2)).length = 9
    ∧ (generateStaticPredictions 17 1 65 (fun _ => 1 / 2)).map (fun r => r.location)
        = ["nsit", "ito", "punjabi", "isbt", "mandir_marg", "civil_lines", "CPCBHQ",
           "Dilshad", "centralschool"]
    ∧ 0.6 * 65 + 0.4 * environmentalNoise 17 1 (locations.get ⟨1, by decide⟩) - 1.5
        ≤ ((generateStaticPredictions 17 1 65 (fun _ => 1 / 2)).get
            ⟨1, by decide⟩).predicted_noise := by
  have h := claim1_predict_count_and_bounds 17 1 65 (fun _ => 1 / 2)
    (by norm_num) (by norm_num) (by norm_num)
    (fun n => ⟨by norm_num, by norm_num⟩)
  exact ⟨h.1, h.2.1, (h.2.2 1 (by norm_num)).1⟩

/-! ## Claim C2: the violation flag -/

/-- C2 counterexample: at hour 12, Tuesday, prior 65, with the jitter
draw `551/1500 ∈ [0, 1)` for the seventh location (`CPCBHQ`, Commercial,
base 66), the unrounded predicted noise is `65.002`, so the flag is
`true`, while the stored `predicted_noise` rounds to exactly the limit
65 — the flag is NOT `predicted_noise > noise_limit`. -/
theorem claim2_counterexample :
    (((generateStaticPredictions 12 1 65 (fun n => if n = 12 then 551 / 1500 else 1 / 2)).get
        ⟨6, by decide⟩).is_violation = true)
    ∧ ¬ (((generateStaticPredictions 12 1 65
            (fun n => if n = 12 then 551 / 1500 else 1 / 2)).get
          ⟨6, by decide⟩).noise_limit
        < ((generateStaticPredictions 12 1 65
            (fun n => if n = 12 then 551 / 1500 else 1 / 2)).get
          ⟨6, by decide⟩).predicted_noise)
    ∧ ((generateStaticPredictions 12 1 65 (fun n => if n = 12 then 551 / 1500 else 1 / 2)).get
        ⟨6, by decide⟩).predicted_noise = 65
    ∧ ((generateStaticPredictions 12 1 65 (fun n => if n = 12 then 551 / 1500 else 1 / 2)).get
        ⟨6, by decide⟩).noise_limit = 65
    ∧ (0 ≤ (551 : ℚ) / 1500 ∧ (551 : ℚ) / 1500 < 1) := by
  refine ⟨by decide, by decide, by decide, by decide, by norm_num⟩

/-- C2 (amended): the flag is `true` iff the PRE-ROUNDING predicted
noise strictly exceeds the applicable limit (equality is compliant), and
the stored limit is the zone's night limit when `hour ≥ 22 ∨ hour < 6`
and its day limit otherwise.  Because the stored `predicted_noise` is
rounded afterwards, the flag can disagree with a comparison against the
stored field. -/
theorem claim2_violation_flag_amended (hour dayOfWeek : ℤ) (p : ℚ) (rand : ℕ → ℚ)
    (hh : 0 ≤ hour ∧ hour ≤ 23) (hd : 0 ≤ dayOfWeek ∧ dayOfWeek ≤ 6)
    (hp : p = 55 ∨ p = 65 ∨ p = 75) (hr : ∀ n, 0 ≤ rand n ∧ rand n < 1) :
    ∀ i (hi : i < 9),
      (((generateStaticPredictions hour dayOfWeek p rand).get ⟨i, hi⟩).is_violation = true
        ↔ ((generateStaticPredictions hour dayOfWeek p rand).get ⟨i, hi⟩).noise_limit
            < predictedNoiseRaw hour dayOfWeek p (locations.get ⟨i, hi⟩) (rand (2 * i)))
      ∧ ((generateStaticPredictions hour dayOfWeek p rand).get ⟨i, hi⟩).noise_limit
          = (if 22 ≤ hour ∨ hour < 6
             then ((zoneLimits (locations.get ⟨i, hi⟩).zone).getD (0, 0)).2
             else ((zoneLimits (locations.get ⟨i, hi⟩).zone).getD (0, 0)).1) := by
  intro i hi
  interval_cases i <;>
    exact ⟨decide_eq_true_iff, noiseLimitFor_ite hour _⟩

/-- Witness for C2 (amended) at hour 17, Tuesday, prior 65, constant
draws 1/2, location index 6. -/
theorem claim2_witness :
    (((generateStaticPredictions 17 1 65 (fun _ => 1 / 2)).get ⟨6, by decide⟩).is_violation
        = true
      ↔ ((generateStaticPredictions 17 1 65 (fun _ => 1 / 2)).get
            ⟨6, by decide⟩).noise_limit
          < predictedNoiseRaw 17 1 65 (locations.get ⟨6, by decide⟩) ((fun _ => 1 / 2) 12))
    ∧ ((generateStaticPredictions 17 1 65 (fun _ => 1 / 2)).get ⟨6, by decide⟩).noise_limit
        = (if (22 : ℤ) ≤ 17 ∨ (17 : ℤ) < 6
           then ((zoneLimits (locations.get ⟨6, by decide⟩).zone).getD (0, 0)).2
           else ((zoneLimits (locations.get ⟨6, by decide⟩).zone).getD (0, 0)).1) :=
  claim2_violation_flag_amended 17 1 65 (fun _ => 1 / 2)
    (by norm_num) (by norm_num) (by norm_num)
    (fun n => ⟨by norm_num, by norm_num⟩) 6 (by norm_num)

/-! ## Claim C3: the confidence range -/

/-- C3 counterexample: with the confidence draw `0.99 ∈ [0, 1)` the
pre-rounding confidence is `0.948`, which rounds to exactly `0.95` —
the confidence field is NOT strictly below `0.95`. -/
theorem claim3_counterexample :
    ((generateStaticPredictions 17 1 65 (fun _ => 99 / 100)).get ⟨0, by decide⟩).confidence
        = 0.95
    ∧ ¬ (((generateStaticPredictions 17 1 65 (fun _ => 99 / 100)).get
          ⟨0, by decide⟩).confidence < 0.95)
    ∧ (0 ≤ (99 : ℚ) / 100 ∧ (99 : ℚ) / 100 < 1) := by
  refine ⟨by decide, by decide, by norm_num⟩

/-- C3 (amended): for every call and every location the confidence field
lies in the CLOSED interval `[0.75, 0.95]`; after the 2-decimal rounding
the right endpoint is attainable. -/
theorem claim3_confidence_range_amended (hour dayOfWeek : ℤ) (p : ℚ) (rand : ℕ → ℚ)
    (hr : ∀ n, 0 ≤ rand n ∧ rand n < 1) :
    ∀ i (hi : i < 9),
      0.75 ≤ ((generateStaticPredictions hour dayOfWeek p rand).get ⟨i, hi⟩).confidence
      ∧ ((generateStaticPredictions hour dayOfWeek p rand).get ⟨i, hi⟩).confidence
          ≤ 0.95 := by
  intro i hi
  interval_cases i
  · exact mkPrediction_conf_bounds hour dayOfWeek p _ _ _ (hr 1).1 (hr 1).2
  · exact mkPrediction_conf_bounds hour dayOfWeek p _ _ _ (hr 3).1 (hr 3).2
  · exact mkPrediction_conf_bounds hour dayOfWeek p _ _ _ (hr 5).1 (hr 5).2
  · exact mkPrediction_conf_bounds hour dayOfWeek p _ _ _ (hr 7).1 (hr 7).2
  · exact mkPrediction_conf_bounds hour dayOfWeek p _ _ _ (hr 9).1 (hr 9).2
  · exact mkPrediction_conf_bounds hour dayOfWeek p _ _ _ (hr 11).1 (hr 11).2
  · exact mkPrediction_conf_bounds hour dayOfWeek p _ _ _ (hr 13).1 (hr 13).2
  · exact mkPrediction_conf_bounds hour dayOfWeek p _ _ _ (hr 15).1 (hr 15).2
  · exact mkPrediction_conf_bounds hour dayOfWeek p _ _ _ (hr 17).1 (hr 17).2

/-- Witness for C3 (amended) at hour 17, Tuesday, prior 65, constant
draws 1/2, location index 0. -/
theorem claim3_witness :
    0.75 ≤ ((generateStaticPredictions 17 1 65 (fun _ => 1 / 2)).get
        ⟨0, by decide⟩).confidence
    ∧ ((generateStaticPredictions 17 1 65 (fun _ => 1 / 2)).get
        ⟨0, by decide⟩).confidence ≤ 0.95 :=
  claim3_confidence_range_amended 17 1 65 (fun _ => 1 / 2)
    (fun n => ⟨by norm_num, by norm_num⟩) 0 (by decide)

/-! ## Claim C4: the worked `ito` example -/

/-- C4: at hour 17, Tuesday, prior 65, the `ito` record (index 1,
Commercial, base 76) has environmental noise 82, stored predicted noise
in `[70.3, 73.3]`, day limit 65, and a violation flag that is `true` for
every jitter draw. -/
theorem claim4_ito_example (rand : ℕ → ℚ) (hr : ∀ n, 0 ≤ rand n ∧ rand n < 1) :
    environmentalNoise 17 1 (locations.get ⟨1, by decide⟩) = 82
    ∧ 70.3 ≤ ((generateStaticPredictions 17 1 65 rand).get ⟨1, by rw [length_generateStaticPredictions]; norm_num⟩).predicted_noise
    ∧ ((generateStaticPredictions 17 1 65 rand).get ⟨1, by rw [length_generateStaticPredictions]; norm_num⟩).predicted_noise ≤ 73.3
    ∧ ((generateStaticPredictions 17 1 65 rand).get ⟨1, by rw [length_generateStaticPredictions]; norm_num⟩).noise_limit = 65
    ∧ ((generateStaticPredictions 17 1 65 rand).get ⟨1, by rw [length_generateStaticPredictions]; norm_num⟩).is_violation = true := by
  have henv : environmentalNoise 17 1 (locations.get ⟨1, by decide⟩) = 82 := by
    norm_num [environmentalNoise, timeFactor, dayFactor, locations]
  have hb := mkPrediction_noise_bounds 17 1 65 (locations.get ⟨1, by decide⟩)
    (rand 2) (rand 3) (hr 2).1 (hr 2).2
    (center_hundred_int 17 1 65 _ ⟨65, by norm_num⟩ (locations_baseNoise_int 1 (by norm_num)))
  rw [henv] at hb
  have heq : (generateStaticPredictions 17 1 65 rand).get ⟨1, by rw [length_generateStaticPredictions]; norm_num⟩
      = mkPrediction 17 1 65 (locations.get ⟨1, by decide⟩) (rand 2) (rand 3) := rfl
  have hviol : (65 : ℚ) < predictedNoiseRaw 17 1 65 (locations.get ⟨1, by decide⟩) (rand 2) := by
    unfold predictedNoiseRaw jitterOf
    rw [henv]
    have := (hr 2).1
    norm_num
    linarith
  refine ⟨henv, ?_, ?_, ?_, ?_⟩
  · rw [heq]
    have h1 := hb.1
    linarith
  · rw [heq]
    have h2 := hb.2
    linarith
  · rw [heq]
    rfl
  · rw [heq]
    exact decide_eq_true hviol

/-- Witness for C4 with constant draws 1/2. -/
theorem claim4_witness :
    environmentalNoise 17 1 (locations.get ⟨1, by decide⟩) = 82
    ∧ 70.3 ≤ ((generateStaticPredictions 17 1 65 (fun _ => 1 / 2)).get
        ⟨1, by decide⟩).predicted_noise
    ∧ ((generateStaticPredictions 17 1 65 (fun _ => 1 / 2)).get
        ⟨1, by decide⟩).predicted_noise ≤ 73.3
    ∧ ((generateStaticPredictions 17 1 65 (fun _ => 1 / 2)).get
        ⟨1, by decide⟩).noise_limit = 65
    ∧ ((generateStaticPredictions 17 1 65 (fun _ => 1 / 2)).get
        ⟨1, by decide⟩).is_violation = true :=
  claim4_ito_example (fun _ => 1 / 2) (fun n => ⟨by norm_num, by norm_num⟩)

/-! ## Claim C9: static per-location fields -/

/-- C9: for every valid input and draw, the output preserves the order
of the compiled-in location list, carries each location's hardcoded
latitude, longitude and zone, and every `noise_limit` is one of the
eight values of the four-zone limit table. -/
theorem claim9_static_fields (hour dayOfWeek : ℤ) (p : ℚ) (rand : ℕ → ℚ)
    (hh : 0 ≤ hour ∧ hour ≤ 23) (hd : 0 ≤ dayOfWeek ∧ dayOfWeek ≤ 6)
    (hp : p = 55 ∨ p = 65 ∨ p = 75) (hr : ∀ n, 0 ≤ rand n ∧ rand n < 1) :
    (generateStaticPredictions hour dayOfWeek p rand).map (fun r => r.location)
        = ["nsit", "ito", "punjabi", "isbt", "mandir_marg", "civil_lines", "CPCBHQ",
           "Dilshad", "centralschool"]
    ∧ (generateStaticPredictions hour dayOfWeek p rand).map (fun r => r.latitude)
        = [28.61, 28.631, 28.66, 28.667, 28.628, 28.678, 28.59, 28.68, 28.53]
    ∧ (generateStaticPredictions hour dayOfWeek p rand).map (fun r => r.longitude)
        = [77.04, 77.248, 77.12, 77.231, 77.203, 77.222, 77.25, 77.31, 77.25]
    ∧ (generateStaticPredictions hour dayOfWeek p rand).map (fun r => r.zone_type)
        = ["Silence Zone", "Commercial", "Residential", "Commercial", "Commercial",
           "Residential", "Commercial", "Residential", "Silence Zone"]
    ∧ ∀ i (hi : i < 9),
        ((generateStaticPredictions hour dayOfWeek p rand).get ⟨i, hi⟩).noise_limit
          ∈ ([75, 70, 65, 55, 55, 45, 50, 40] : List ℚ) := by
  refine ⟨rfl, rfl, rfl, rfl, ?_⟩
  intro i hi
  interval_cases i
  · exact noiseLimitFor_mem hour "Silence Zone" (by decide)
  · exact noiseLimitFor_mem hour "Commercial" (by decide)
  · exact noiseLimitFor_mem hour "Residential" (by decide)
  · exact noiseLimitFor_mem hour "Commercial" (by decide)
  · exact noiseLimitFor_mem hour "Commercial" (by decide)
  · exact noiseLimitFor_mem hour "Residential" (by decide)
  · exact noiseLimitFor_mem hour "Commercial" (by decide)
  · exact noiseLimitFor_mem hour "Residential" (by decide)
  · exact noiseLimitFor_mem hour "Silence Zone" (by decide)

/-- Witness for C9 at hour 17, Tuesday, prior 65, constant draws 1/2. -/
theorem claim9_witness :
    (generateStaticPredictions 17 1 65 (fun _ => 1 / 2)).map (fun r => r.location)
        = ["nsit", "ito", "punjabi", "isbt", "mandir_marg", "civil_lines", "CPCBHQ",
           "Dilshad", "centralschool"]
    ∧ ((generateStaticPredictions 17 1 65 (fun _ => 1 / 2)).get ⟨0, by decide⟩).noise_limit
        ∈ ([75, 70, 65, 55, 55, 45, 50, 40] : List ℚ) := by
  have h := claim9_static_fields 17 1 65 (fun _ => 1 / 2)
    (by norm_num) (by norm_num) (by norm_num) (fun n => ⟨by norm_num, by norm_num⟩)
  exact ⟨h.1, h.2.2.2.2 0 (by norm_num)⟩

/-! ## Claim C8: the text-generation client -/

/-- C8 counterexample: with a healthy listing, a usable model, a
successful generation call and a non-empty candidate list whose first
candidate has an empty `parts` array, the client still fails — with a
runtime type error from `candidates[0].content.parts[0].text`, not one
of the four descriptive errors, and it returns no text. -/
theorem claim8_counterexample :
    callGeminiAPI
        (Except.ok [{ name := "models/m", supportedGenerationMethods := ["generateContent"] }])
        (fun _ => Except.ok { candidates := [{ content := { parts := [] } }] })
      = Except.error GeminiError.typeError
    ∧ usableModels [{ name := "models/m", supportedGenerationMethods := ["generateContent"] }]
        ≠ []
    ∧ ({ candidates := [{ content := { parts := [] } }] } : GeminiResponse).candidates ≠ []
    ∧ GeminiError.typeError ≠ GeminiError.descriptive "No response returned from Gemini API" := by
  refine ⟨rfl, by decide, by decide, by decide⟩

/-- C8 (amended): the client fails with a descriptive error exactly in
the four stated cases, fails with a non-descriptive type error when the
first candidate has no parts, and otherwise returns the first usable
model's first candidate's first part text, trimmed — as captured by the
specification-side model `geminiClientSpec`, with discovery re-run on
(i.e. the outcome recomputed from) every invocation's inputs. -/
theorem claim8_client_behavior_amended (listOutcome : Except String (List ModelInfo))
    (genOutcome : String → Except String GeminiResponse) :
    callGeminiAPI listOutcome genOutcome = geminiClientSpec listOutcome genOutcome := by
  cases listOutcome with
  | error msg => rfl
  | ok models =>
    simp only [callGeminiAPI, pickModelWithGenerateContent, listAvailableModels,
      geminiClientSpec]
    cases husable : usableModels models with
    | nil => rfl
    | cons m rest =>
      cases hg : genOutcome m.name with
      | error e => rfl
      | ok data =>
        cases hc : data.candidates with
        | nil => simp [hg, hc]
        | cons c cs =>
          cases hpp : c.content.parts with
          | nil => simp [hg, hc, hpp]
          | cons part0 ps => simp [hg, hc, hpp]

/-! ## Claim C10: monotonicity in the prior-noise level -/

/-- C10: for fixed hour, day, location and jitter draw, the pre-rounding
predicted noise increases by exactly `0.6 * d` when the prior noise
increases by `d`, hence is strictly increasing in the prior, and the
three presets 55/65/75 sit exactly 6.0 apart. -/
theorem claim10_monotone_prior (hour dayOfWeek : ℤ) (loc : LocationInfo) (u : ℚ) (p d : ℚ)
    (hd : 0 < d) :
    predictedNoiseRaw hour dayOfWeek (p + d) loc u
        = predictedNoiseRaw hour dayOfWeek p loc u + 0.6 * d
    ∧ predictedNoiseRaw hour dayOfWeek p loc u < predictedNoiseRaw hour dayOfWeek (p + d) loc u
    ∧ predictedNoiseRaw hour dayOfWeek 75 loc u = predictedNoiseRaw hour dayOfWeek 65 loc u + 6
    ∧ predictedNoiseRaw hour dayOfWeek 65 loc u = predictedNoiseRaw hour dayOfWeek 55 loc u + 6 := by
  unfold predictedNoiseRaw jitterOf
  refine ⟨by ring, by nlinarith, by ring, by ring⟩

/-- Witness for C10 at hour 17, Tuesday, the `ito` location, jitter draw
`1/2`, prior 65 raised by 1. -/
theorem claim10_witness :
    predictedNoiseRaw 17 1 (65 + 1)
        { name := "ito", lat := 28.631, lon := 77.248, zone := "Commercial", baseNoise := 76 }
        (1 / 2)
      = predictedNoiseRaw 17 1 65
          { name := "ito", lat := 28.631, lon := 77.248, zone := "Commercial", baseNoise := 76 }
          (1 / 2) + 0.6 * 1 :=
  (claim10_monotone_prior 17 1
    { name := "ito", lat := 28.631, lon := 77.248, zone := "Commercial", baseNoise := 76 }
    (1 / 2) 65 1 (by norm_num)).1

end NoiseDashboard
